import Mathlib

/-
  Shallow embedding of `src/build/update-launcher.c` (the whole repository:
  the SIP Toast update launcher).

  The C program is a straight-line procedure over Win32 calls.  We model the
  environment the OS presents to one run (the module path returned by
  GetModuleFileNameA, whether each CreateProcessA call succeeds, the update
  step's exit code, the GetLastError value) as a structure `Env`, and the
  launcher's observable behaviour as a pure function from `Env` to a trace of
  OS-call events plus the process exit code.  Strings are `List Char`;
  bounded `snprintf` into an `n`-byte buffer is modelled as truncation to the
  first `n - 1` characters.
-/

namespace UpdateLauncher

/-- Characters of a string literal (C strings are modelled as `List Char`). -/
def str (s : String) : List Char := s.data

/-- Windows `MAX_PATH`. -/
def MAX_PATH : Nat := 260

/-- `snprintf` into a buffer of `cap` bytes: the formatted content is
truncated to at most `cap - 1` characters (one byte is reserved for the
terminating NUL, which we do not represent). -/
def snprintfN (cap : Nat) (content : List Char) : List Char :=
  content.take (cap - 1)

/-- Fuel-driven decimal printer: digits of `n` (most significant first)
consed onto `acc`.  Models the `%lu` conversion of `snprintf`. -/
def natDigitsAux : Nat → Nat → List Char → List Char
  | 0, _, acc => acc
  | fuel + 1, n, acc =>
    if n < 10 then Char.ofNat (48 + n) :: acc
    else natDigitsAux fuel (n / 10) (Char.ofNat (48 + n % 10) :: acc)

/-- Decimal representation of `n`, as produced by `%lu`. -/
def natDigits (n : Nat) : List Char := natDigitsAux (n + 1) n []

/-- `strrchr`-based directory extraction from lines 24-27 of the C source:
truncate the path at its last backslash; a path with no backslash is left
unmodified. -/
def dirOf : List Char → List Char
  | [] => []
  | a :: rest =>
    if ('\\' ∈ rest) then a :: dirOf rest
    else if a = '\\' then [] else a :: rest

/-- Win32 process-creation flag `CREATE_NO_WINDOW`. -/
def CREATE_NO_WINDOW : Nat := 0x08000000

/-- Win32 process-creation flag `NORMAL_PRIORITY_CLASS`. -/
def NORMAL_PRIORITY_CLASS : Nat := 0x00000020

/-- Win32 process-creation flag `CREATE_NEW_CONSOLE`. -/
def CREATE_NEW_CONSOLE : Nat := 0x00000010

/-- Win32 `MessageBoxA` flag `MB_OK`. -/
def MB_OK : Nat := 0x00000000

/-- Win32 `MessageBoxA` flag `MB_ICONERROR`. -/
def MB_ICONERROR : Nat := 0x00000010

/-- The two handles of a `PROCESS_INFORMATION` record. -/
inductive HKind where
  | hProcess
  | hThread
deriving DecidableEq, Repr

/-- Observable OS-call events of one launcher run.  Child `1` is the update
step, child `2` the main application. -/
inductive Event where
  | createProcess (child : Nat) (cmdLine : List Char) (flags : Nat)
      (workDir : List Char) (ok : Bool)
  | waitForSingleObject (child : Nat) (infiniteTimeout : Bool)
  | getExitCodeProcess (child : Nat) (code : Nat)
  | closeHandle (child : Nat) (h : HKind)
  | messageBox (text : List Char) (title : List Char) (flags : Nat)
deriving DecidableEq, Repr

/-- The environment the OS presents to one run of the launcher. -/
structure Env where
  /-- `argv` as passed to `main` (never read by the program). -/
  args : List (List Char)
  /-- The executable path `GetModuleFileNameA` would report (before buffer
  truncation). -/
  modulePath : List Char
  /-- Whether `CreateProcessA` for the update step succeeds. -/
  updateStarts : Bool
  /-- Exit code of the update-step process. -/
  updateExit : Nat
  /-- Whether `CreateProcessA` for the main application succeeds. -/
  mainStarts : Bool
  /-- `GetLastError` value when the main launch fails. -/
  lastError : Nat
deriving DecidableEq, Repr

/-- Content of the `appPath` buffer after `GetModuleFileNameA(NULL, appPath,
MAX_PATH)`: at most `MAX_PATH - 1` characters of the module path. -/
def appPathBuf (env : Env) : List Char := env.modulePath.take (MAX_PATH - 1)

/-- The install directory: `appPath` after the `strrchr` truncation. -/
def installDir (env : Env) : List Char := dirOf (appPathBuf env)

/-- `snprintf(batchPath, MAX_PATH, "%s\\update.bat", appPath)`. -/
def batchPath (env : Env) : List Char :=
  snprintfN MAX_PATH (installDir env ++ str "\\update.bat")

/-- `snprintf(cmdLine, MAX_PATH * 2, "cmd /c \"%s\"", batchPath)`. -/
def updateCmd (env : Env) : List Char :=
  snprintfN (MAX_PATH * 2) (str "cmd /c \"" ++ batchPath env ++ str "\"")

/-- `snprintf(cmdLine, MAX_PATH * 2, "\"%s\\SIP Toast.exe\"", appPath)`. -/
def mainCmd (env : Env) : List Char :=
  snprintfN (MAX_PATH * 2) (str "\"" ++ installDir env ++ str "\\SIP Toast.exe\"")

/-- `snprintf(errorMsg, 256, "Failed to launch SIP Toast.exe (Error: %lu)",
GetLastError())`. -/
def errMsg (e : Nat) : List Char :=
  snprintfN 256 (str "Failed to launch SIP Toast.exe (Error: " ++ natDigits e ++ str ")")

/-- Events of the update step (lines 42-60 of the C source): one
`CreateProcessA` attempt; on success an `INFINITE` wait, the exit-code read,
and both handle closes; on failure nothing further. -/
def updateTrace (env : Env) : List Event :=
  Event.createProcess 1 (updateCmd env) CREATE_NO_WINDOW (installDir env)
      env.updateStarts ::
  (if env.updateStarts then
    [Event.waitForSingleObject 1 true,
     Event.getExitCodeProcess 1 env.updateExit,
     Event.closeHandle 1 HKind.hProcess,
     Event.closeHandle 1 HKind.hThread]
  else [])

/-- Events of the main-application launch (lines 62-92 of the C source): one
`CreateProcessA` attempt; on success both handle closes (no wait); on failure
a single `MessageBoxA`. -/
def mainTrace (env : Env) : List Event :=
  Event.createProcess 2 (mainCmd env)
      (NORMAL_PRIORITY_CLASS ||| CREATE_NEW_CONSOLE) (installDir env)
      env.mainStarts ::
  (if env.mainStarts then
    [Event.closeHandle 2 HKind.hProcess,
     Event.closeHandle 2 HKind.hThread]
  else
    [Event.messageBox (errMsg env.lastError) (str "Update Launcher Error")
       (MB_OK ||| MB_ICONERROR)])

/-- The full event trace of one run of `main`. -/
def launcherTrace (env : Env) : List Event := updateTrace env ++ mainTrace env

/-- The launcher's own exit code: `1` on the main-launch failure path,
`0` otherwise. -/
def launcherExit (env : Env) : Nat := if env.mainStarts then 0 else 1

/-- One run of the launcher: its event trace and its exit code. -/
def launcherRun (env : Env) : List Event × Nat := (launcherTrace env, launcherExit env)

/-- Recogniser for dialog events. -/
def isMessageBox : Event → Bool
  | Event.messageBox _ _ _ => true
  | _ => false

/-- Concrete environment: the launcher installed at `C:\Apps\Tool`, both
child processes start. -/
def envTool : Env :=
  { args := [], modulePath := str "C:\\Apps\\Tool\\update.exe",
    updateStarts := true, updateExit := 7, mainStarts := true, lastError := 0 }

/-- Concrete environment with an over-long module path: the resolved install
directory has 253 characters, so the derived update-script path overflows the
`MAX_PATH`-byte buffer and is truncated. -/
def envLong : Env :=
  { args := [], modulePath := str "C:\\" ++ List.replicate 250 'A' ++ str "\\x.exe",
    updateStarts := true, updateExit := 0, mainStarts := true, lastError := 0 }

/-- Concrete environment where the main application fails to start with
`GetLastError() = 2` (`ERROR_FILE_NOT_FOUND`). -/
def envFail : Env :=
  { args := [], modulePath := str "C:\\Apps\\Tool\\update.exe",
    updateStarts := true, updateExit := 0, mainStarts := false, lastError := 2 }

/-- Concrete environment where the update step fails to start (script
missing) but the main application launches. -/
def envNoBat : Env :=
  { args := [], modulePath := str "C:\\Apps\\Tool\\update.exe",
    updateStarts := false, updateExit := 0, mainStarts := true, lastError := 0 }

/-- Concrete environment whose module path contains no backslash. -/
def envNoSlash : Env :=
  { args := [], modulePath := str "noslash.exe",
    updateStarts := true, updateExit := 0, mainStarts := true, lastError := 0 }

/-- Length bound for the fuel-driven decimal printer: printing `n < 10 ^ k`
onto `acc` adds at most `k` characters, provided the fuel exceeds `n`. -/
theorem natDigitsAux_length_le (fuel : Nat) :
    ∀ (n k : Nat) (acc : List Char), n < fuel → n < 10 ^ k → 1 ≤ k →
      (natDigitsAux fuel n acc).length ≤ k + acc.length := by
  induction fuel with
  | zero => intro n k acc hf _ _; omega
  | succ f ih =>
    intro n k acc hf hk h1
    by_cases h : n < 10
    · rw [natDigitsAux, if_pos h]
      simp
      omega
    · rw [natDigitsAux, if_neg h]
      have hk2 : 2 ≤ k := by
        rcases Nat.lt_or_ge k 2 with hlt | hge
        · have hk1 : k = 1 := by omega

          subst hk1
          simp [pow_one] at hk
          omega
        · exact hge
      have hdiv : n / 10 < 10 ^ (k - 1) := by
        have hpow : 10 ^ k = 10 ^ (k - 1) * 10 := by
          conv_lhs => rw [show k = (k - 1) + 1 by omega]
          rw [pow_succ]
        exact (Nat.div_lt_iff_lt_mul (by norm_num)).mpr (by omega)
      have hfuel : n / 10 < f := by
        have hlt : n / 10 < n := Nat.div_lt_self (by omega) (by norm_num)
        omega
      have := ih (n / 10) (k - 1) (Char.ofNat (48 + n % 10) :: acc) hfuel hdiv (by omega)
      simp at this
      omega

/-- Length bound for the `%lu` model. -/
theorem natDigits_length_le (n k : Nat) (hk : n < 10 ^ k) (h1 : 1 ≤ k) :
    (natDigits n).length ≤ k := by
  have := natDigitsAux_length_le (n + 1) n k [] (Nat.lt_succ_self n) hk h1
  simpa using this

/-- `strrchr` model: a path without a backslash is left unmodified. -/
theorem dirOf_of_not_mem (l : List Char) (h : '\\' ∉ l) : dirOf l = l := by
  cases l with
  | nil => rfl
  | cons a rest =>
    have h1 : '\\' ∉ rest := fun hm => h (List.mem_cons_of_mem _ hm)
    have h2 : ¬ a = '\\' := fun he => h (he ▸ List.mem_cons_self _ _)
    rw [dirOf, if_neg h1, if_neg h2]

/-- C1: whenever the update-step process is created successfully, the
launcher performs an `INFINITE` (no-timeout) wait on it, reads its exit code
and closes its handles, and only then does the attempt to start the main
application occur: the main application's `CreateProcessA` event is never
emitted before the update step's wait completes. -/
theorem update_wait_precedes_main_launch (env : Env) (h : env.updateStarts = true) :
    launcherTrace env
      = Event.createProcess 1 (updateCmd env) CREATE_NO_WINDOW (installDir env) true
        :: Event.waitForSingleObject 1 true
        :: Event.getExitCodeProcess 1 env.updateExit
        :: Event.closeHandle 1 HKind.hProcess
        :: Event.closeHandle 1 HKind.hThread
        :: mainTrace env ∧
    ∃ l, mainTrace env
      = Event.createProcess 2 (mainCmd env)
          (NORMAL_PRIORITY_CLASS ||| CREATE_NEW_CONSOLE) (installDir env)
          env.mainStarts :: l := by
  constructor
  · simp [launcherTrace, updateTrace, h]
  · exact ⟨_, rfl⟩

/-- Witness for C1 at the concrete environment `envTool`. -/
theorem update_wait_precedes_main_launch_witness :
    envTool.updateStarts = true ∧
    (launcherTrace envTool
      = Event.createProcess 1 (updateCmd envTool) CREATE_NO_WINDOW (installDir envTool) true
        :: Event.waitForSingleObject 1 true
        :: Event.getExitCodeProcess 1 envTool.updateExit
        :: Event.closeHandle 1 HKind.hProcess
        :: Event.closeHandle 1 HKind.hThread
        :: mainTrace envTool ∧
    ∃ l, mainTrace envTool
      = Event.createProcess 2 (mainCmd envTool)
          (NORMAL_PRIORITY_CLASS ||| CREATE_NEW_CONSOLE) (installDir envTool)
          envTool.mainStarts :: l) :=
  ⟨rfl, update_wait_precedes_main_launch envTool rfl⟩

/-- C2: the launcher's exit code is `0` exactly when the main application's
`CreateProcessA` succeeded (whatever the update step did), `1` exactly when
it failed, and the trace never contains a wait on the main application
(child 2): the launcher does not block on the launched application. -/
theorem exit_code_contract (env : Env) :
    (launcherExit env = 0 ↔ env.mainStarts = true) ∧
    (launcherExit env = 1 ↔ env.mainStarts = false) ∧
    ∀ b, Event.waitForSingleObject 2 b ∉ launcherTrace env := by
  refine ⟨?_, ?_, ?_⟩
  · cases hm : env.mainStarts <;> simp [launcherExit, hm]
  · cases hm : env.mainStarts <;> simp [launcherExit, hm]
  · intro b
    cases hu : env.updateStarts <;> cases hm : env.mainStarts <;>
      simp [launcherTrace, updateTrace, mainTrace, hu, hm]

/-- C6: the update step's exit code is captured but never inspected —
changing it changes nothing the launcher does afterwards: the post-update
trace, the dialogs shown, the main command line and the launcher's own exit
code are all identical. -/
theorem update_exit_noninterference (env : Env) (c : Nat) :
    mainTrace { env with updateExit := c } = mainTrace env ∧
    mainCmd { env with updateExit := c } = mainCmd env ∧
    (launcherTrace { env with updateExit := c }).filter isMessageBox
      = (launcherTrace env).filter isMessageBox ∧
    launcherExit { env with updateExit := c } = launcherExit env := by
  obtain ⟨a, m, u, e, ms, le⟩ := env
  refine ⟨rfl, rfl, ?_, rfl⟩
  cases u <;>
    simp [launcherTrace, updateTrace, mainTrace, isMessageBox, List.filter_append]

/-- C7: every successfully created child process has both its handles closed,
immediately after the exit-code read for the update step and immediately
after launch for the main application, and a failed `CreateProcessA` yields
no handle-close events at all for that child. -/
theorem handle_release_invariant (env : Env) :
    (env.updateStarts = true →
      launcherTrace env
        = Event.createProcess 1 (updateCmd env) CREATE_NO_WINDOW (installDir env) true
          :: Event.waitForSingleObject 1 true
          :: Event.getExitCodeProcess 1 env.updateExit
          :: Event.closeHandle 1 HKind.hProcess
          :: Event.closeHandle 1 HKind.hThread
          :: mainTrace env) ∧
    (env.updateStarts = false → ∀ k, Event.closeHandle 1 k ∉ launcherTrace env) ∧
    (env.mainStarts = true →
      ∃ l, launcherTrace env
        = l ++ [Event.createProcess 2 (mainCmd env)
                  (NORMAL_PRIORITY_CLASS ||| CREATE_NEW_CONSOLE) (installDir env) true,
                Event.closeHandle 2 HKind.hProcess,
                Event.closeHandle 2 HKind.hThread]) ∧
    (env.mainStarts = false → ∀ k, Event.closeHandle 2 k ∉ launcherTrace env) := by
  refine ⟨?_, ?_, ?_, ?_⟩
  · intro h
    simp [launcherTrace, updateTrace, h]
  · intro h k
    cases hm : env.mainStarts <;>
      simp [launcherTrace, updateTrace, mainTrace, h, hm]
  · intro h
    exact ⟨updateTrace env, by simp [launcherTrace, mainTrace, h]⟩
  · intro h k
    cases hu : env.updateStarts <;>
      simp [launcherTrace, updateTrace, mainTrace, h, hu]

/-- C8: `argc`/`argv` are accepted but ignored — two runs differing only in
the command-line arguments have identical traces and exit codes. -/
theorem argv_noninterference (env : Env) (a b : List (List Char)) :
    launcherRun { env with args := a } = launcherRun { env with args := b } := by
  obtain ⟨x, m, u, e, ms, le⟩ := env
  rfl

/-- C3: when the main application fails to start, the trace contains exactly
one dialog event — a modal (`MB_OK | MB_ICONERROR`) box titled
"Update Launcher Error" whose message contains the decimal `GetLastError`
code — and the launcher exits with code 1.  The error code is a `DWORD`,
hence below `2 ^ 32`. -/
theorem launch_failure_dialog (env : Env) (hm : env.mainStarts = false)
    (he : env.lastError < 2 ^ 32) :
    (launcherTrace env).countP isMessageBox = 1 ∧
    Event.messageBox (errMsg env.lastError) (str "Update Launcher Error")
        (MB_OK ||| MB_ICONERROR) ∈ launcherTrace env ∧
    (∃ s t, errMsg env.lastError = s ++ natDigits env.lastError ++ t) ∧
    launcherExit env = 1 := by
  refine ⟨?_, ?_, ?_, ?_⟩
  · cases hu : env.updateStarts <;>
      simp [launcherTrace, updateTrace, mainTrace, hm, hu, isMessageBox,
        List.countP_cons, List.countP_append]
  · simp [launcherTrace, mainTrace, hm]
  · refine ⟨str "Failed to launch SIP Toast.exe (Error: ", str ")", ?_⟩
    have hlen : (natDigits env.lastError).length ≤ 10 :=
      natDigits_length_le _ 10 (lt_of_lt_of_le he (by norm_num)) (by norm_num)
    have h39 : (str "Failed to launch SIP Toast.exe (Error: ").length = 39 := by decide
    have h1 : (str ")").length = 1 := by decide
    rw [errMsg, snprintfN, List.take_of_length_le]
    simp [List.length_append, h39, h1]
    omega
  · simp [launcherExit, hm]

/-- Witness for C3 at the concrete environment `envFail`. -/
theorem launch_failure_dialog_witness :
    (envFail.mainStarts = false ∧ envFail.lastError < 2 ^ 32) ∧
    ((launcherTrace envFail).countP isMessageBox = 1 ∧
    Event.messageBox (errMsg envFail.lastError) (str "Update Launcher Error")
        (MB_OK ||| MB_ICONERROR) ∈ launcherTrace envFail ∧
    (∃ s t, errMsg envFail.lastError = s ++ natDigits envFail.lastError ++ t) ∧
    launcherExit envFail = 1) :=
  ⟨⟨rfl, by decide⟩, launch_failure_dialog envFail rfl (by decide)⟩

/-- C4: if the update-step process fails to start, the launcher skips
straight from the failed attempt to the main launch attempt — no wait, no
handle close, no dialog in between — and when the main executable is
launchable it launches with exit code 0 and no dialog anywhere. -/
theorem update_step_optional (env : Env) (h : env.updateStarts = false) :
    launcherTrace env
      = Event.createProcess 1 (updateCmd env) CREATE_NO_WINDOW (installDir env) false
        :: mainTrace env ∧
    (∃ l, mainTrace env
      = Event.createProcess 2 (mainCmd env)
          (NORMAL_PRIORITY_CLASS ||| CREATE_NEW_CONSOLE) (installDir env)
          env.mainStarts :: l) ∧
    (env.mainStarts = true →
      launcherExit env = 0 ∧ ∀ m t f, Event.messageBox m t f ∉ launcherTrace env) := by
  refine ⟨by simp [launcherTrace, updateTrace, h], ⟨_, rfl⟩, ?_⟩
  intro hm
  refine ⟨by simp [launcherExit, hm], ?_⟩
  intro m t f
  simp [launcherTrace, updateTrace, mainTrace, h, hm]

/-- Witness for C4 at the concrete environment `envNoBat`. -/
theorem update_step_optional_witness :
    envNoBat.updateStarts = false ∧
    (launcherTrace envNoBat
      = Event.createProcess 1 (updateCmd envNoBat) CREATE_NO_WINDOW
          (installDir envNoBat) false
        :: mainTrace envNoBat ∧
    (∃ l, mainTrace envNoBat
      = Event.createProcess 2 (mainCmd envNoBat)
          (NORMAL_PRIORITY_CLASS ||| CREATE_NEW_CONSOLE) (installDir envNoBat)
          envNoBat.mainStarts :: l) ∧
    (envNoBat.mainStarts = true →
      launcherExit envNoBat = 0 ∧
      ∀ m t f, Event.messageBox m t f ∉ launcherTrace envNoBat)) :=
  ⟨rfl, update_step_optional envNoBat rfl⟩

/-- C5 (amended): for every resolved install directory `d` short enough that
the derived strings fit the `snprintf` buffers (`d` at most 248 characters),
the update step is invoked with command line exactly `cmd /c "d\update.bat"`,
no window, working directory `d`, and the main application with command line
exactly `"d\SIP Toast.exe"` (quoted), normal priority plus a new console,
working directory `d`.  For longer directories the command lines are
silently truncated (see the counterexample and C10). -/
theorem process_invocation_bounded (env : Env) (h : (installDir env).length ≤ 248) :
    batchPath env = installDir env ++ str "\\update.bat" ∧
    updateCmd env = str "cmd /c \"" ++ (installDir env ++ str "\\update.bat") ++ str "\"" ∧
    mainCmd env = str "\"" ++ installDir env ++ str "\\SIP Toast.exe\"" ∧
    Event.createProcess 1 (updateCmd env) CREATE_NO_WINDOW (installDir env)
        env.updateStarts ∈ launcherTrace env ∧
    Event.createProcess 2 (mainCmd env) (NORMAL_PRIORITY_CLASS ||| CREATE_NEW_CONSOLE)
        (installDir env) env.mainStarts ∈ launcherTrace env := by
  have h11 : (str "\\update.bat").length = 11 := by decide
  have hb : batchPath env = installDir env ++ str "\\update.bat" := by
    rw [batchPath, snprintfN, List.take_of_length_le]
    rw [List.length_append, h11]
    rw [MAX_PATH]
    omega
  refine ⟨hb, ?_, ?_, ?_, ?_⟩
  · have h8 : (str "cmd /c \"").length = 8 := by decide
    have h1 : (str "\"").length = 1 := by decide
    rw [updateCmd, hb, snprintfN, List.take_of_length_le]
    simp only [List.length_append, h8, h1, h11]
    rw [MAX_PATH]
    omega
  · have h1 : (str "\"").length = 1 := by decide
    have h15 : (str "\\SIP Toast.exe\"").length = 15 := by decide
    rw [mainCmd, snprintfN, List.take_of_length_le]
    simp only [List.length_append, h1, h15]
    rw [MAX_PATH]
    omega
  · simp [launcherTrace, updateTrace]
  · simp [launcherTrace, mainTrace]

set_option maxRecDepth 100000 in
/-- Counterexample to C5 as stated: with the over-long install directory of
`envLong` (253 characters), the update command line is not the exact string
the claim requires — the `MAX_PATH`-bounded `snprintf` truncates the script
path. -/
theorem process_invocation_counterexample :
    updateCmd envLong
      ≠ str "cmd /c \"" ++ (installDir envLong ++ str "\\update.bat") ++ str "\"" := by
  decide

/-- Witness for C5 at the concrete environment `envTool`, exhibiting the
exact derived strings for install directory `C:\Apps\Tool`. -/
theorem process_invocation_bounded_witness :
    ((installDir envTool).length ≤ 248 ∧
      installDir envTool = str "C:\\Apps\\Tool" ∧
      batchPath envTool = str "C:\\Apps\\Tool\\update.bat" ∧
      updateCmd envTool = str "cmd /c \"C:\\Apps\\Tool\\update.bat\"" ∧
      mainCmd envTool = str "\"C:\\Apps\\Tool\\SIP Toast.exe\"") ∧
    (batchPath envTool = installDir envTool ++ str "\\update.bat" ∧
    updateCmd envTool
      = str "cmd /c \"" ++ (installDir envTool ++ str "\\update.bat") ++ str "\"" ∧
    mainCmd envTool = str "\"" ++ installDir envTool ++ str "\\SIP Toast.exe\"" ∧
    Event.createProcess 1 (updateCmd envTool) CREATE_NO_WINDOW (installDir envTool)
        envTool.updateStarts ∈ launcherTrace envTool ∧
    Event.createProcess 2 (mainCmd envTool) (NORMAL_PRIORITY_CLASS ||| CREATE_NEW_CONSOLE)
        (installDir envTool) envTool.mainStarts ∈ launcherTrace envTool) :=
  ⟨⟨by decide, by decide, by decide, by decide, by decide⟩,
    process_invocation_bounded envTool (by decide)⟩

/-- C9: when the executable path reported into the `appPath` buffer contains
no backslash, `strrchr` finds nothing, the path is used verbatim as the
install directory, and hence as the working directory of both child
processes and the prefix of the derived paths. -/
theorem no_backslash_verbatim (env : Env) (h : '\\' ∉ appPathBuf env) :
    installDir env = appPathBuf env ∧
    batchPath env = snprintfN MAX_PATH (appPathBuf env ++ str "\\update.bat") ∧
    Event.createProcess 1 (updateCmd env) CREATE_NO_WINDOW (appPathBuf env)
        env.updateStarts ∈ launcherTrace env ∧
    Event.createProcess 2 (mainCmd env) (NORMAL_PRIORITY_CLASS ||| CREATE_NEW_CONSOLE)
        (appPathBuf env) env.mainStarts ∈ launcherTrace env := by
  have hd : installDir env = appPathBuf env := dirOf_of_not_mem _ h
  refine ⟨hd, by rw [batchPath, hd], ?_, ?_⟩
  · rw [← hd]
    simp [launcherTrace, updateTrace]
  · rw [← hd]
    simp [launcherTrace, mainTrace]

/-- Witness for C9 at the concrete environment `envNoSlash`. -/
theorem no_backslash_verbatim_witness :
    ('\\' ∉ appPathBuf envNoSlash ∧ installDir envNoSlash = str "noslash.exe") ∧
    (installDir envNoSlash = appPathBuf envNoSlash ∧
    batchPath envNoSlash = snprintfN MAX_PATH (appPathBuf envNoSlash ++ str "\\update.bat") ∧
    Event.createProcess 1 (updateCmd envNoSlash) CREATE_NO_WINDOW (appPathBuf envNoSlash)
        envNoSlash.updateStarts ∈ launcherTrace envNoSlash ∧
    Event.createProcess 2 (mainCmd envNoSlash) (NORMAL_PRIORITY_CLASS ||| CREATE_NEW_CONSOLE)
        (appPathBuf envNoSlash) envNoSlash.mainStarts ∈ launcherTrace envNoSlash) :=
  ⟨⟨by decide, by decide⟩, no_backslash_verbatim envNoSlash (by decide)⟩

set_option maxRecDepth 100000 in
/-- C10: every string the launcher builds goes through a bounded `snprintf`
into a fixed buffer, so each result fits its buffer (with room for the NUL)
and is a truncated prefix of the untruncated content; and truncation really
can occur — for the over-long directory of `envLong` the derived script path
is not the full `d\update.bat`. -/
theorem bounded_construction (env : Env) :
    (batchPath env).length < MAX_PATH ∧
    (updateCmd env).length < MAX_PATH * 2 ∧
    (mainCmd env).length < MAX_PATH * 2 ∧
    (∀ e, (errMsg e).length < 256) ∧
    (∃ t, batchPath env ++ t = installDir env ++ str "\\update.bat") ∧
    (∃ t, updateCmd env ++ t = str "cmd /c \"" ++ batchPath env ++ str "\"") ∧
    (∃ t, mainCmd env ++ t = str "\"" ++ installDir env ++ str "\\SIP Toast.exe\"") ∧
    (∃ e2 : Env, batchPath e2 ≠ installDir e2 ++ str "\\update.bat") := by
  refine ⟨?_, ?_, ?_, ?_, ?_, ?_, ?_, ?_⟩
  · rw [batchPath, snprintfN, MAX_PATH]
    exact Nat.lt_of_le_of_lt (List.length_take_le _ _) (by norm_num)
  · rw [updateCmd, snprintfN, MAX_PATH]
    exact Nat.lt_of_le_of_lt (List.length_take_le _ _) (by norm_num)
  · rw [mainCmd, snprintfN, MAX_PATH]
    exact Nat.lt_of_le_of_lt (List.length_take_le _ _) (by norm_num)
  · intro e
    rw [errMsg, snprintfN]
    exact Nat.lt_of_le_of_lt (List.length_take_le _ _) (by norm_num)
  · exact ⟨_, List.take_append_drop _ _⟩
  · exact ⟨_, List.take_append_drop _ _⟩
  · exact ⟨_, List.take_append_drop _ _⟩
  · exact ⟨envLong, by decide⟩

end UpdateLauncher
